import Mathlib

/-!
The two JNI secret accessors of `native-lib.cpp`.

Shallow embedding of `app/src/main/cpp/native-lib.cpp`.  The file defines two
functions with C linkage.  Each one builds a function-local `std::string` from a
string literal, passes the `c_str()` view of that string to `env->NewStringUTF`
and returns what the host gave back; the local string is destroyed on return.

The host runtime is not part of the file, so it appears as a parameter: a table
of JNI functions acting on an arbitrary host state `H`.  The C++ library is a
parameter as well: its small-string capacity and the size of the block it
requests for a longer string.  Native memory is explicit: every character
buffer carries the storage it lives in, the native allocator has a finite
amount of free memory, and a request it cannot serve raises `std::bad_alloc`,
which nothing in the file catches.
-/

namespace NativeLib

/-! ## Native memory -/

/-- One `char` of native memory, as an unsigned value. -/
abbrev Byte := Nat

/-- The storage a native character buffer lives in. -/
inductive Storage
  | rodata     -- a string literal: static storage, read-only data of the artifact
  | inlineBuf  -- the small-string buffer inside a `std::string` object
  | heap       -- a block a `std::string` obtained from the native allocator
  deriving DecidableEq, Repr

/-- A `const char*`: the storage it points into and the bytes readable from it on. -/
structure CharPtr where
  storage : Storage
  bytes : List Byte
  deriving DecidableEq, Repr

/-- UTF-8 code units of one source character (the encoding of a narrow literal). -/
def utf8 (c : Char) : List Byte :=
  let n := c.toNat
  if n < 128 then [n]
  else if n < 2048 then [192 + n / 64, 128 + n % 64]
  else if n < 65536 then [224 + n / 4096, 128 + n / 64 % 64, 128 + n % 64]
  else [240 + n / 262144, 128 + n / 4096 % 64, 128 + n / 64 % 64, 128 + n % 64]

/-- A narrow string literal `"..."`: an array of `char` in read-only data holding
the characters of the literal followed by the terminating NUL. -/
def stringLiteral (s : String) : CharPtr :=
  ⟨Storage.rodata, s.data.flatMap utf8 ++ [0]⟩

/-- The bytes a reader of a C string sees: everything before the first NUL. -/
def cstrView (p : CharPtr) : List Byte :=
  p.bytes.takeWhile (fun b => b ≠ 0)

/-- `strlen`: the number of bytes before the first NUL. -/
def strlen (p : CharPtr) : Nat :=
  (cstrView p).length

/-- The native allocator: the sizes of the blocks it has handed out, newest
first, and the memory it has left. -/
structure NativeHeap where
  live : List Nat
  free : Nat
  deriving DecidableEq, Repr

/-- `operator new(n)`: a block of `n` bytes, or `none` when the allocator cannot
serve the request (the caller then sees `std::bad_alloc`). -/
def NativeHeap.operatorNew (heap : NativeHeap) (n : Nat) : Option NativeHeap :=
  if n ≤ heap.free then some ⟨n :: heap.live, heap.free - n⟩ else none

/-- `operator delete` of a block of `n` bytes. -/
def NativeHeap.operatorDelete (heap : NativeHeap) (n : Nat) : NativeHeap :=
  ⟨heap.live.erase n, heap.free + n⟩

/-- The C++ library in use, as far as `std::string` storage goes: `sso` is the
small-string capacity, `blockSize n` the number of bytes requested from the
allocator for a string of `n` characters that does not fit the object. -/
structure StdLib where
  sso : Nat
  blockSize : Nat → Nat

/-- An exception of the C++ library. -/
inductive CxxException
  | bad_alloc
  | length_error
  deriving DecidableEq, Repr

/-- A `std::string` object: where its characters are stored, the size of the
block it holds from the allocator (0 without one) and the characters themselves
(`size()` of them; the terminator is kept after them). -/
structure StdString where
  storage : Storage
  block : Nat
  data : List Byte
  deriving DecidableEq, Repr

/-- Where a `std::string` of `n` characters keeps them: up to `sso` characters
fit the buffer inside the object, a longer string needs a block from the
allocator. -/
def storageFor (sso n : Nat) : Storage :=
  if n ≤ sso then Storage.inlineBuf else Storage.heap

/-- The object `std::string(const char* s)` builds: a copy of the `strlen s`
characters of `s`, kept in the object itself or in a block of the size the
library requests. -/
def StdString.ofCStr (lib : StdLib) (s : CharPtr) : StdString :=
  let n := strlen s
  match storageFor lib.sso n with
  | Storage.heap => ⟨Storage.heap, lib.blockSize n, s.bytes.take n⟩
  | st => ⟨st, 0, s.bytes.take n⟩

/-- The storage request `std::string(const char* s)` makes before it copies the
characters: the allocator state once the block is held, or `none` when
`operator new` fails.  A string kept in the object asks for nothing. -/
def StdString.acquire (s : StdString) (heap : NativeHeap) : Option NativeHeap :=
  match s.storage with
  | Storage.heap => heap.operatorNew s.block
  | _ => some heap

/-- `c_str()`: pointer to the characters of the string, followed by a NUL. -/
def StdString.c_str (s : StdString) : CharPtr :=
  ⟨s.storage, s.data ++ [0]⟩

/-- `~basic_string()`: gives the block back when the string holds one. -/
def StdString.destroy (s : StdString) (heap : NativeHeap) : NativeHeap :=
  match s.storage with
  | Storage.heap => heap.operatorDelete s.block
  | _ => heap

/-! ## The host runtime, seen through `jni.h` -/

/-- A host reference (`jobject`, `jstring`): `none` is the null reference. -/
abbrev jobject := Option Nat

/-- A host string reference. -/
abbrev jstring := Option Nat

/-- The part of the `JNIEnv` function table modelled here, over a host state `H`.
Every function takes and returns the host state, which includes the pending
exception. -/
structure JNIEnv (H : Type) where
  NewStringUTF : CharPtr → H → jstring × H
  ExceptionCheck : H → Bool × H
  ExceptionClear : H → H
  ExceptionDescribe : H → H
  NewGlobalRef : jobject → H → jobject × H
  DeleteLocalRef : jobject → H → H

/-- What else of the process native code can reach: the objects of static
storage and, per open descriptor (file or socket), the bytes written to it. -/
structure World where
  statics : List (List Byte)
  descriptors : List (Nat × List Byte)
  deriving DecidableEq, Repr

/-- The state of the process a call runs in: the host state, the native
allocator, and the rest of the process. -/
structure Process (H : Type) where
  host : H
  heap : NativeHeap
  world : World
  deriving DecidableEq

/-- How a call of a native method ends: it returns a value, or a C++ exception
leaves the function.  Either way `after` is the process state at that point. -/
inductive Outcome (H : Type)
  | returned (result : jstring) (after : Process H)
  | threw (e : CxxException) (after : Process H)
  deriving DecidableEq

/-- The process state a call ended in. -/
def Outcome.after {H : Type} : Outcome H → Process H
  | Outcome.returned _ q => q
  | Outcome.threw _ q => q

/-! ## The two functions of `native-lib.cpp` -/

/-- The local `std::string api_key = "e8f1...a6";` of `getApiKey`: the object the
declaration builds. -/
def api_key (lib : StdLib) : StdString :=
  StdString.ofCStr lib
    (stringLiteral "e8f1a2b3c4d5e6f7a8b9c0d1e2f3a4b5c6d7e8f9a0b1c2d3e4f5a6")

/-- The local `std::string hmac_secret = "c1d2...c7";` of `getHmacSecret`: the
object the declaration builds. -/
def hmac_secret (lib : StdLib) : StdString :=
  StdString.ofCStr lib
    (stringLiteral "c1d2e3f4g5h6i7j8k9l0m1n2o3p4q5r6s7t8u9v0w1x2y3z4a5b6c7")

/-- `Java_com_vaultguard_app_di_NetworkModule_getApiKey(JNIEnv* env, jobject)`:
construct `api_key`, which throws when its storage cannot be had (there is no
handler, so the exception leaves the function before `env` is used); otherwise
`return env->NewStringUTF(api_key.c_str());` and destroy `api_key` on the way
out. -/
def Java_com_vaultguard_app_di_NetworkModule_getApiKey {H : Type} (lib : StdLib)
    (env : JNIEnv H) (_this : jobject) (p : Process H) : Outcome H :=
  match (api_key lib).acquire p.heap with
  | none => Outcome.threw CxxException.bad_alloc p
  | some heap1 =>
      let call := env.NewStringUTF (api_key lib).c_str p.host
      Outcome.returned call.1 ⟨call.2, (api_key lib).destroy heap1, p.world⟩

/-- `Java_com_vaultguard_app_di_NetworkModule_getHmacSecret(JNIEnv* env, jobject)`:
construct `hmac_secret`, which throws when its storage cannot be had (there is
no handler, so the exception leaves the function before `env` is used);
otherwise `return env->NewStringUTF(hmac_secret.c_str());` and destroy
`hmac_secret` on the way out. -/
def Java_com_vaultguard_app_di_NetworkModule_getHmacSecret {H : Type} (lib : StdLib)
    (env : JNIEnv H) (_this : jobject) (p : Process H) : Outcome H :=
  match (hmac_secret lib).acquire p.heap with
  | none => Outcome.threw CxxException.bad_alloc p
  | some heap1 =>
      let call := env.NewStringUTF (hmac_secret lib).c_str p.host
      Outcome.returned call.1 ⟨call.2, (hmac_secret lib).destroy heap1, p.world⟩

/-- A function definition of the translation unit, as far as linking goes. -/
structure FunctionDef where
  cLinkage : Bool   -- declared with C language linkage (no C++ name mangling)
  exported : Bool   -- marked `JNIEXPORT` (default visibility)
  name : String
  deriving DecidableEq, Repr

/-- The function definitions of `native-lib.cpp`, in file order. -/
def translationUnit : List FunctionDef :=
  [⟨true, true, "Java_com_vaultguard_app_di_NetworkModule_getApiKey"⟩,
   ⟨true, true, "Java_com_vaultguard_app_di_NetworkModule_getHmacSecret"⟩]

/-- The symbols the artifact exports under their plain names. -/
def exportedSymbols : List String :=
  (translationUnit.filter (fun f => f.cLinkage && f.exported)).map (fun f => f.name)

/-! ## Calling the accessors -/

/-- The two entry points. -/
inductive Accessor
  | getApiKey
  | getHmacSecret
  deriving DecidableEq, Repr

/-- The exported name of an entry point. -/
def Accessor.symbol : Accessor → String
  | Accessor.getApiKey => "Java_com_vaultguard_app_di_NetworkModule_getApiKey"
  | Accessor.getHmacSecret => "Java_com_vaultguard_app_di_NetworkModule_getHmacSecret"

/-- The host calling an entry point it has resolved. -/
def invoke {H : Type} (lib : StdLib) (env : JNIEnv H) :
    Accessor → jobject → Process H → Outcome H
  | Accessor.getApiKey => Java_com_vaultguard_app_di_NetworkModule_getApiKey lib env
  | Accessor.getHmacSecret => Java_com_vaultguard_app_di_NetworkModule_getHmacSecret lib env

/-- The local string of an entry point. -/
def localString (lib : StdLib) : Accessor → StdString
  | Accessor.getApiKey => api_key lib
  | Accessor.getHmacSecret => hmac_secret lib

/-- The string literal an entry point is written with. -/
def literalOf : Accessor → CharPtr
  | Accessor.getApiKey =>
      stringLiteral "e8f1a2b3c4d5e6f7a8b9c0d1e2f3a4b5c6d7e8f9a0b1c2d3e4f5a6"
  | Accessor.getHmacSecret =>
      stringLiteral "c1d2e3f4g5h6i7j8k9l0m1n2o3p4q5r6s7t8u9v0w1x2y3z4a5b6c7"

/-- A host runtime together with the way the host reads a string back: `content h r`
is the character sequence of the string `r` refers to in host state `h`. -/
structure HostRuntime (H : Type) where
  env : JNIEnv H
  content : H → Nat → Option (List Byte)

/-- What `jni.h` promises of `NewStringUTF` for an ASCII buffer: when it returns a
non-null reference, that string holds the bytes of the buffer up to the first
NUL. -/
def Conforming {H : Type} (rt : HostRuntime H) : Prop :=
  ∀ (buf : CharPtr) (h h1 : H) (r : Nat),
    rt.env.NewStringUTF buf h = (some r, h1) →
    (∀ b ∈ cstrView buf, b < 128) →
    rt.content h1 r = some (cstrView buf)

/-- The content of a result as the host reads it back; nothing for null. -/
def readBack {H : Type} (rt : HostRuntime H) (h : H) (r : jstring) : Option (List Byte) :=
  r.bind (rt.content h)

/-- A sequence of calls, each result read back right after the call returned.  An
exception that leaves a native method ends the run, with no result for that
call or any later one. -/
def run {H : Type} (lib : StdLib) (rt : HostRuntime H) :
    List (Accessor × jobject) → Process H → List (Option (List Byte))
  | [], _ => []
  | c :: rest, p =>
      match invoke lib rt.env c.1 c.2 p with
      | Outcome.returned r q => readBack rt q.host r :: run lib rt rest q
      | Outcome.threw _ _ => []

/-! ## Two hosts to run against -/

/-- A call received through the function table. -/
inductive JNICall
  | NewStringUTF (buf : CharPtr)
  | ExceptionCheck
  | ExceptionClear
  | ExceptionDescribe
  | NewGlobalRef (obj : jobject)
  | DeleteLocalRef (obj : jobject)
  deriving DecidableEq, Repr

/-- A host that only records the calls it receives, in order, and answers every
`NewStringUTF` with `answer`. -/
def recordingEnv (answer : jstring) : JNIEnv (List JNICall) where
  NewStringUTF := fun buf log => (answer, log ++ [JNICall.NewStringUTF buf])
  ExceptionCheck := fun log => (false, log ++ [JNICall.ExceptionCheck])
  ExceptionClear := fun log => log ++ [JNICall.ExceptionClear]
  ExceptionDescribe := fun log => log ++ [JNICall.ExceptionDescribe]
  NewGlobalRef := fun obj log => (obj, log ++ [JNICall.NewGlobalRef obj])
  DeleteLocalRef := fun obj log => log ++ [JNICall.DeleteLocalRef obj]

/-- A host exception. -/
inductive Throwable
  | OutOfMemoryError
  | other (code : Nat)
  deriving DecidableEq, Repr

/-- A small host: the strings it has constructed (a reference is an index) and the
pending exception. -/
structure TestHost where
  strings : List (List Byte)
  pending : Option Throwable
  deriving DecidableEq, Repr

/-- Whether the small host is out of room: `limit` bounds the number of strings it
can hold (`none`: no bound). -/
def TestHost.exhausted (limit : Option Nat) (h : TestHost) : Bool :=
  match limit with
  | none => false
  | some n => decide (n ≤ h.strings.length)

/-- `NewStringUTF` of the small host: out of room it returns null and leaves an
`OutOfMemoryError` pending; otherwise it copies the bytes up to the first NUL
into a new string. -/
def TestHost.newStringUTF (limit : Option Nat) (buf : CharPtr) (h : TestHost) :
    jstring × TestHost :=
  if TestHost.exhausted limit h then (none, ⟨h.strings, some Throwable.OutOfMemoryError⟩)
  else (some h.strings.length, ⟨h.strings ++ [cstrView buf], h.pending⟩)

/-- The function table of the small host. -/
def testEnv (limit : Option Nat) : JNIEnv TestHost where
  NewStringUTF := TestHost.newStringUTF limit
  ExceptionCheck := fun h => (h.pending.isSome, h)
  ExceptionClear := fun h => ⟨h.strings, none⟩
  ExceptionDescribe := fun h => h
  NewGlobalRef := fun obj h => (obj, h)
  DeleteLocalRef := fun _ h => h

/-- The small host as a runtime: a string is read back by its index. -/
def testRuntime (limit : Option Nat) : HostRuntime TestHost :=
  ⟨testEnv limit, fun h r => h.strings[r]?⟩

/-- A process on the small host before any call: no string constructed, nothing
pending, no block handed out and `free` bytes left to the native allocator,
nothing in static storage, no descriptor open. -/
def startProcess (free : Nat) : Process TestHost :=
  ⟨⟨[], none⟩, ⟨[], free⟩, ⟨[], []⟩⟩

/-- A process on the recording host with an empty log. -/
def startRecording (free : Nat) : Process (List JNICall) :=
  ⟨[], ⟨[], free⟩, ⟨[], []⟩⟩

/-- A library with small-string capacity `sso` that requests `pad` bytes on top
of the characters of a longer string. -/
def paddedLib (sso pad : Nat) : StdLib :=
  ⟨sso, fun n => n + pad⟩

/-- The calls that look at or change the pending exception. -/
def JNICall.touchesException : JNICall → Bool
  | JNICall.ExceptionCheck => true
  | JNICall.ExceptionClear => true
  | JNICall.ExceptionDescribe => true
  | _ => false

/-! ## The payload contract of the specification -/

namespace Spec

/-- The specification's `API_KEY`, as ASCII codes. -/
def API_KEY : List Byte :=
  "e8f1a2b3c4d5e6f7a8b9c0d1e2f3a4b5c6d7e8f9a0b1c2d3e4f5a6".data.map Char.toNat

/-- The specification's `HMAC_SECRET`, as ASCII codes. -/
def HMAC_SECRET : List Byte :=
  "c1d2e3f4g5h6i7j8k9l0m1n2o3p4q5r6s7t8u9v0w1x2y3z4a5b6c7".data.map Char.toNat

/-- The payload the specification assigns to an entry point. -/
def payload : Accessor → List Byte
  | Accessor.getApiKey => API_KEY
  | Accessor.getHmacSecret => HMAC_SECRET

/-- Modelled from the spec: the declaring class on the host side, which is not
among the sources; the specification gives its fully-qualified name. -/
def declaringClass : String := "com.vaultguard.app.di.NetworkModule"

/-- Modelled from the spec: the host name-mangling rule in the specification's
words, namely `Java_`, then the fully-qualified class name with the package
separators replaced by underscores, then `_` and the method name. -/
def mangle (cls method : String) : String :=
  "Java_" ++ String.mk (cls.data.map (fun c => if c = '.' then '_' else c)) ++ "_" ++ method

end Spec


/-! ## Evaluating the two locals -/

theorem strlen_literalOf (a : Accessor) : strlen (literalOf a) = 54 := by
  cases a <;> decide

theorem take_literalOf (a : Accessor) : (literalOf a).bytes.take 54 = Spec.payload a := by
  cases a <;> decide

theorem bytes_literalOf (a : Accessor) : (literalOf a).bytes = Spec.payload a ++ [0] := by
  cases a <;> decide

theorem localString_eq_ofCStr (lib : StdLib) (a : Accessor) :
    localString lib a = StdString.ofCStr lib (literalOf a) := by
  cases a <;> rfl

theorem localString_inline (lib : StdLib) (a : Accessor) (h : 54 ≤ lib.sso) :
    localString lib a = ⟨Storage.inlineBuf, 0, Spec.payload a⟩ := by
  rw [localString_eq_ofCStr]
  unfold StdString.ofCStr
  simp only [strlen_literalOf, take_literalOf]
  unfold storageFor
  rw [if_pos h]

theorem localString_heap (lib : StdLib) (a : Accessor) (h : lib.sso < 54) :
    localString lib a = ⟨Storage.heap, lib.blockSize 54, Spec.payload a⟩ := by
  rw [localString_eq_ofCStr]
  unfold StdString.ofCStr
  simp only [strlen_literalOf, take_literalOf]
  unfold storageFor
  rw [if_neg (by omega)]

theorem localString_data (lib : StdLib) (a : Accessor) :
    (localString lib a).data = Spec.payload a := by
  rcases Nat.lt_or_ge lib.sso 54 with h | h
  · rw [localString_heap lib a h]
  · rw [localString_inline lib a h]

theorem localString_storage (lib : StdLib) (a : Accessor) :
    (localString lib a).storage = storageFor lib.sso 54 := by
  unfold storageFor
  rcases Nat.lt_or_ge lib.sso 54 with h | h
  · rw [localString_heap lib a h, if_neg (by omega)]
  · rw [localString_inline lib a h, if_pos h]

theorem c_str_localString (lib : StdLib) (a : Accessor) :
    (localString lib a).c_str = ⟨storageFor lib.sso 54, Spec.payload a ++ [0]⟩ := by
  unfold StdString.c_str
  rw [localString_data, localString_storage]

theorem acquire_localString_none (lib : StdLib) (a : Accessor) (heap : NativeHeap)
    (h : lib.sso < 54 ∧ heap.free < lib.blockSize 54) :
    (localString lib a).acquire heap = none := by
  rw [localString_heap lib a h.1]
  unfold StdString.acquire NativeHeap.operatorNew
  simp only
  rw [if_neg (by omega)]

theorem acquire_localString_inline (lib : StdLib) (a : Accessor) (heap : NativeHeap)
    (h : 54 ≤ lib.sso) : (localString lib a).acquire heap = some heap := by
  rw [localString_inline lib a h]
  rfl

theorem acquire_localString_heap (lib : StdLib) (a : Accessor) (heap : NativeHeap)
    (h : lib.sso < 54) (hroom : lib.blockSize 54 ≤ heap.free) :
    (localString lib a).acquire heap
      = some ⟨lib.blockSize 54 :: heap.live, heap.free - lib.blockSize 54⟩ := by
  rw [localString_heap lib a h]
  unfold StdString.acquire NativeHeap.operatorNew
  simp only
  rw [if_pos hroom]

theorem destroy_localString_heap (lib : StdLib) (a : Accessor) (heap : NativeHeap)
    (h : lib.sso < 54) (hroom : lib.blockSize 54 ≤ heap.free) :
    (localString lib a).destroy
        ⟨lib.blockSize 54 :: heap.live, heap.free - lib.blockSize 54⟩ = heap := by
  rw [localString_heap lib a h]
  unfold StdString.destroy NativeHeap.operatorDelete
  simp only [List.erase_cons_head, Nat.sub_add_cancel hroom]

theorem destroy_localString_inline (lib : StdLib) (a : Accessor) (heap : NativeHeap)
    (h : 54 ≤ lib.sso) : (localString lib a).destroy heap = heap := by
  rw [localString_inline lib a h]
  rfl

theorem cstrView_handoff (st : Storage) (a : Accessor) :
    cstrView ⟨st, Spec.payload a ++ [0]⟩ = Spec.payload a := by
  cases a <;> cases st <;> decide

theorem ascii_payload (a : Accessor) : ∀ b ∈ Spec.payload a, b < 128 := by
  cases a <;> decide

theorem invoke_eq_localString {H : Type} (lib : StdLib) (env : JNIEnv H) (a : Accessor)
    (this : jobject) (p : Process H) :
    invoke lib env a this p
      = (match (localString lib a).acquire p.heap with
         | none => Outcome.threw CxxException.bad_alloc p
         | some heap1 =>
             Outcome.returned (env.NewStringUTF (localString lib a).c_str p.host).1
               ⟨(env.NewStringUTF (localString lib a).c_str p.host).2,
                (localString lib a).destroy heap1, p.world⟩) := by
  cases a <;> rfl

theorem invoke_eq {H : Type} (lib : StdLib) (env : JNIEnv H) (a : Accessor)
    (this : jobject) (p : Process H) :
    invoke lib env a this p
      = (if lib.sso < 54 ∧ p.heap.free < lib.blockSize 54 then
           Outcome.threw CxxException.bad_alloc p
         else
           Outcome.returned
             (env.NewStringUTF ⟨storageFor lib.sso 54, Spec.payload a ++ [0]⟩ p.host).1
             ⟨(env.NewStringUTF ⟨storageFor lib.sso 54, Spec.payload a ++ [0]⟩ p.host).2,
              p.heap, p.world⟩) := by
  rw [invoke_eq_localString, c_str_localString]
  by_cases hno : lib.sso < 54 ∧ p.heap.free < lib.blockSize 54
  · rw [if_pos hno, acquire_localString_none lib a p.heap hno]
  · rw [if_neg hno]
    rcases Nat.lt_or_ge lib.sso 54 with h | h
    · have hroom : lib.blockSize 54 ≤ p.heap.free := by omega
      rw [acquire_localString_heap lib a p.heap h hroom]
      simp only [destroy_localString_heap lib a p.heap h hroom]
    · rw [acquire_localString_inline lib a p.heap h]
      simp only [destroy_localString_inline lib a p.heap h]

theorem returned_of_invoke {H : Type} (lib : StdLib) (env : JNIEnv H) (a : Accessor)
    (this : jobject) (p : Process H) (r : jstring) (q : Process H)
    (h : invoke lib env a this p = Outcome.returned r q) :
    ¬ (lib.sso < 54 ∧ p.heap.free < lib.blockSize 54)
      ∧ r = (env.NewStringUTF ⟨storageFor lib.sso 54, Spec.payload a ++ [0]⟩ p.host).1
      ∧ q = ⟨(env.NewStringUTF ⟨storageFor lib.sso 54, Spec.payload a ++ [0]⟩ p.host).2,
              p.heap, p.world⟩ := by
  rw [invoke_eq] at h
  split_ifs at h with hno
  simp only [Outcome.returned.injEq] at h
  exact ⟨hno, h.1.symm, h.2.symm⟩

theorem threw_of_invoke {H : Type} (lib : StdLib) (env : JNIEnv H) (a : Accessor)
    (this : jobject) (p : Process H) (e : CxxException) (q : Process H)
    (h : invoke lib env a this p = Outcome.threw e q) :
    (lib.sso < 54 ∧ p.heap.free < lib.blockSize 54) ∧ e = CxxException.bad_alloc ∧ q = p := by
  rw [invoke_eq] at h
  split_ifs at h with hno
  simp only [Outcome.threw.injEq] at h
  exact ⟨hno, h.1.symm, h.2.symm⟩

theorem content_of_success {H : Type} (lib : StdLib) (rt : HostRuntime H) (a : Accessor)
    (this : jobject) (p : Process H) (hc : Conforming rt) (r : Nat) (q : Process H)
    (hr : invoke lib rt.env a this p = Outcome.returned (some r) q) :
    rt.content q.host r = some (Spec.payload a) := by
  obtain ⟨_, h1, h2⟩ := returned_of_invoke lib rt.env a this p (some r) q hr
  have h := hc ⟨storageFor lib.sso 54, Spec.payload a ++ [0]⟩ p.host
    (rt.env.NewStringUTF ⟨storageFor lib.sso 54, Spec.payload a ++ [0]⟩ p.host).2 r
    (Prod.ext h1.symm rfl)
  rw [cstrView_handoff] at h
  rw [h2]
  exact h (ascii_payload a)

theorem testRuntime_conforming (limit : Option Nat) : Conforming (testRuntime limit) := by
  intro buf h h1 r hcall _
  have hcall2 : TestHost.newStringUTF limit buf h = (some r, h1) := hcall
  unfold TestHost.newStringUTF at hcall2
  show h1.strings[r]? = some (cstrView buf)
  split_ifs at hcall2
  · simp at hcall2
  · simp only [Prod.mk.injEq, Option.some.injEq] at hcall2
    obtain ⟨hr, hh⟩ := hcall2
    subst hr; subst hh
    simp

theorem testRuntime_succeeds (buf : CharPtr) (h : TestHost) :
    ((testRuntime none).env.NewStringUTF buf h).1 ≠ none := by
  show (TestHost.newStringUTF none buf h).1 ≠ none
  simp [TestHost.newStringUTF, TestHost.exhausted]

theorem run_of_success {H : Type} (lib : StdLib) (rt : HostRuntime H) (hc : Conforming rt)
    (hs : ∀ (buf : CharPtr) (h : H), (rt.env.NewStringUTF buf h).1 ≠ none)
    (calls : List (Accessor × jobject)) :
    ∀ p : Process H, ¬ (lib.sso < 54 ∧ p.heap.free < lib.blockSize 54) →
      run lib rt calls p = calls.map (fun c => some (Spec.payload c.1)) := by
  induction calls with
  | nil => intro p _; rfl
  | cons c rest ih =>
    intro p hroom
    have hinv := invoke_eq lib rt.env c.1 c.2 p
    rw [if_neg hroom] at hinv
    obtain ⟨r, hr⟩ := Option.ne_none_iff_exists'.mp
      (hs ⟨storageFor lib.sso 54, Spec.payload c.1 ++ [0]⟩ p.host)
    rw [hr] at hinv
    have hcontent := content_of_success lib rt c.1 c.2 p hc r _ hinv
    simp only [run, hinv, List.map_cons]
    refine congrArg₂ List.cons ?_ (ih _ hroom)
    simp only [readBack, Option.some_bind]
    exact hcontent

theorem run_of_no_room {H : Type} (lib : StdLib) (rt : HostRuntime H)
    (calls : List (Accessor × jobject)) (p : Process H)
    (hno : lib.sso < 54 ∧ p.heap.free < lib.blockSize 54) : run lib rt calls p = [] := by
  cases calls with
  | nil => rfl
  | cons c rest =>
    have hinv := invoke_eq lib rt.env c.1 c.2 p
    rw [if_pos hno] at hinv
    simp only [run, hinv]

/-! ## The payloads -/

/-- C1: for every host function table, caller handle and process state,
`getApiKey` hands `NewStringUTF` a buffer holding the 54 bytes of `API_KEY`
followed by NUL and returns what it returns, leaving the host in the state that
call left; the one case in which it hands over nothing is that its local string
cannot get storage, and then it makes no host call and returns nothing.  Read as
a C string the buffer is `API_KEY` unchanged; hence on a conforming host a
non-null result is a string whose bytes are exactly `API_KEY`. -/
theorem getApiKey_returns_API_KEY {H : Type} (lib : StdLib) (rt : HostRuntime H)
    (this : jobject) (p : Process H) :
    Java_com_vaultguard_app_di_NetworkModule_getApiKey lib rt.env this p
        = (if lib.sso < 54 ∧ p.heap.free < lib.blockSize 54 then
             Outcome.threw CxxException.bad_alloc p
           else
             Outcome.returned (rt.env.NewStringUTF ⟨storageFor lib.sso 54, Spec.API_KEY ++ [0]⟩ p.host).1
               ⟨(rt.env.NewStringUTF ⟨storageFor lib.sso 54, Spec.API_KEY ++ [0]⟩ p.host).2, p.heap, p.world⟩)
      ∧ cstrView ⟨storageFor lib.sso 54, Spec.API_KEY ++ [0]⟩ = Spec.API_KEY
      ∧ Spec.API_KEY.length = 54
      ∧ (Conforming rt → ∀ (r : Nat) (q : Process H),
          Java_com_vaultguard_app_di_NetworkModule_getApiKey lib rt.env this p = Outcome.returned (some r) q →
          rt.content q.host r = some Spec.API_KEY) :=
  ⟨invoke_eq lib rt.env Accessor.getApiKey this p,
   cstrView_handoff (storageFor lib.sso 54) Accessor.getApiKey,
   by decide,
   fun hc r q hr => content_of_success lib rt Accessor.getApiKey this p hc r q hr⟩

/-- Witness of C1 on the small host: the call returns reference 0, and the string
behind it is `API_KEY`. -/
theorem getApiKey_returns_API_KEY_witness :
    Java_com_vaultguard_app_di_NetworkModule_getApiKey (paddedLib 22 1) (testRuntime none).env none (startProcess 4096)
        = Outcome.returned (some 0) ⟨⟨[Spec.API_KEY], none⟩, ⟨[], 4096⟩, ⟨[], []⟩⟩
      ∧ (testRuntime none).content ⟨[Spec.API_KEY], none⟩ 0 = some Spec.API_KEY :=
  ⟨by decide,
   (getApiKey_returns_API_KEY (paddedLib 22 1) (testRuntime none) none
      (startProcess 4096)).2.2.2
     (testRuntime_conforming none) 0 ⟨⟨[Spec.API_KEY], none⟩, ⟨[], 4096⟩, ⟨[], []⟩⟩
     (by decide)⟩

/-- C2: for every host function table, caller handle and process state,
`getHmacSecret` hands `NewStringUTF` a buffer holding the 54 bytes of
`HMAC_SECRET` followed by NUL and returns what it returns, leaving the host in
the state that call left; the one case in which it hands over nothing is that
its local string cannot get storage, and then it makes no host call and returns
nothing.  Read as a C string the buffer is `HMAC_SECRET` unchanged; hence on a
conforming host a non-null result is a string whose bytes are exactly
`HMAC_SECRET`. -/
theorem getHmacSecret_returns_HMAC_SECRET {H : Type} (lib : StdLib) (rt : HostRuntime H)
    (this : jobject) (p : Process H) :
    Java_com_vaultguard_app_di_NetworkModule_getHmacSecret lib rt.env this p
        = (if lib.sso < 54 ∧ p.heap.free < lib.blockSize 54 then
             Outcome.threw CxxException.bad_alloc p
           else
             Outcome.returned (rt.env.NewStringUTF ⟨storageFor lib.sso 54, Spec.HMAC_SECRET ++ [0]⟩ p.host).1
               ⟨(rt.env.NewStringUTF ⟨storageFor lib.sso 54, Spec.HMAC_SECRET ++ [0]⟩ p.host).2, p.heap, p.world⟩)
      ∧ cstrView ⟨storageFor lib.sso 54, Spec.HMAC_SECRET ++ [0]⟩ = Spec.HMAC_SECRET
      ∧ Spec.HMAC_SECRET.length = 54
      ∧ (Conforming rt → ∀ (r : Nat) (q : Process H),
          Java_com_vaultguard_app_di_NetworkModule_getHmacSecret lib rt.env this p = Outcome.returned (some r) q →
          rt.content q.host r = some Spec.HMAC_SECRET) :=
  ⟨invoke_eq lib rt.env Accessor.getHmacSecret this p,
   cstrView_handoff (storageFor lib.sso 54) Accessor.getHmacSecret,
   by decide,
   fun hc r q hr => content_of_success lib rt Accessor.getHmacSecret this p hc r q hr⟩

/-- Witness of C2 on the small host, after an earlier call and with a non-null
caller handle: the call returns reference 1, and the string behind it is
`HMAC_SECRET`. -/
theorem getHmacSecret_returns_HMAC_SECRET_witness :
    Java_com_vaultguard_app_di_NetworkModule_getHmacSecret (paddedLib 15 1) (testRuntime none).env (some 7)
        (invoke (paddedLib 15 1) (testRuntime none).env Accessor.getApiKey none
          (startProcess 4096)).after
        = Outcome.returned (some 1)
            ⟨⟨[Spec.API_KEY, Spec.HMAC_SECRET], none⟩, ⟨[], 4096⟩, ⟨[], []⟩⟩
      ∧ (testRuntime none).content ⟨[Spec.API_KEY, Spec.HMAC_SECRET], none⟩ 1
        = some Spec.HMAC_SECRET :=
  ⟨by decide,
   (getHmacSecret_returns_HMAC_SECRET (paddedLib 15 1) (testRuntime none) (some 7)
      (invoke (paddedLib 15 1) (testRuntime none).env Accessor.getApiKey none
        (startProcess 4096)).after).2.2.2
     (testRuntime_conforming none) 1
     ⟨⟨[Spec.API_KEY, Spec.HMAC_SECRET], none⟩, ⟨[], 4096⟩, ⟨[], []⟩⟩ (by decide)⟩

/-! ## Failure, determinism, interleaving -/

/-- C3 fails as stated: with no memory left to the native allocator `getApiKey`
fails although the host string constructor would have succeeded on the very
same state: `std::bad_alloc` leaves the function, no value is returned and the
constructor is never asked. -/
theorem bad_alloc_is_not_a_constructor_failure :
    invoke (paddedLib 22 1) (testEnv none) Accessor.getApiKey none (startProcess 0)
        = Outcome.threw CxxException.bad_alloc (startProcess 0)
      ∧ ((testEnv none).NewStringUTF ⟨Storage.heap, Spec.API_KEY ++ [0]⟩
          (startProcess 0).host).1 = some 0
      ∧ invoke (paddedLib 22 1) (testEnv none) Accessor.getApiKey none (startProcess 0)
        ≠ Outcome.returned
            ((testEnv none).NewStringUTF ⟨Storage.heap, Spec.API_KEY ++ [0]⟩
              (startProcess 0).host).1
            ⟨((testEnv none).NewStringUTF ⟨Storage.heap, Spec.API_KEY ++ [0]⟩
              (startProcess 0).host).2, (startProcess 0).heap, (startProcess 0).world⟩ := by
  decide

/-- C3, amended: for both accessors and every host function table, whenever the
accessor returns, its result is the value `NewStringUTF` returned and the host
state (pending exception included) is the state that call left, with the native
side of the process as before the call; so it returns null exactly when the
constructor returned null.  The accessor fails in one other way only: when its
local string cannot get storage, `std::bad_alloc` leaves the function before
the host is called, with the process unchanged; with storage to be had it
always returns.  On the small host out of room it returns null with the
constructor's `OutOfMemoryError` left pending and nothing else changed, and a
recording host sees no call that checks, clears or describes the pending
exception. -/
theorem accessor_propagates_constructor_result {H : Type} (lib : StdLib) (env : JNIEnv H)
    (a : Accessor) (this : jobject) (p : Process H) :
    (∀ (r : jstring) (q : Process H), invoke lib env a this p = Outcome.returned r q →
        r = (env.NewStringUTF ⟨storageFor lib.sso 54, Spec.payload a ++ [0]⟩ p.host).1
          ∧ q = ⟨(env.NewStringUTF ⟨storageFor lib.sso 54, Spec.payload a ++ [0]⟩ p.host).2, p.heap, p.world⟩
          ∧ (r = none ↔ (env.NewStringUTF ⟨storageFor lib.sso 54, Spec.payload a ++ [0]⟩ p.host).1 = none))
      ∧ (∀ (e : CxxException) (q : Process H), invoke lib env a this p = Outcome.threw e q →
          e = CxxException.bad_alloc ∧ q = p
            ∧ lib.sso < 54 ∧ p.heap.free < lib.blockSize 54)
      ∧ (¬ (lib.sso < 54 ∧ p.heap.free < lib.blockSize 54) →
          invoke lib env a this p
            = Outcome.returned (env.NewStringUTF ⟨storageFor lib.sso 54, Spec.payload a ++ [0]⟩ p.host).1
                ⟨(env.NewStringUTF ⟨storageFor lib.sso 54, Spec.payload a ++ [0]⟩ p.host).2, p.heap, p.world⟩)
      ∧ (∀ (strings : List (List Byte)) (pending : Option Throwable) (heap : NativeHeap)
          (w : World), ¬ (lib.sso < 54 ∧ heap.free < lib.blockSize 54) →
          invoke lib (testEnv (some 0)) a this ⟨⟨strings, pending⟩, heap, w⟩
            = Outcome.returned none ⟨⟨strings, some Throwable.OutOfMemoryError⟩, heap, w⟩)
      ∧ (∀ (answer : jstring) (log : List JNICall) (heap : NativeHeap) (w : World),
          ((invoke lib (recordingEnv answer) a this ⟨log, heap, w⟩).after.host.drop
              log.length).any JNICall.touchesException = false) := by
  refine ⟨?_, ?_, ?_, ?_, ?_⟩
  · intro r q h
    obtain ⟨_, h1, h2⟩ := returned_of_invoke lib env a this p r q h
    exact ⟨h1, h2, by rw [h1]⟩
  · intro e q h
    obtain ⟨h0, h1, h2⟩ := threw_of_invoke lib env a this p e q h
    exact ⟨h1, h2, h0.1, h0.2⟩
  · intro hroom
    rw [invoke_eq, if_neg hroom]
  · intro strings pending heap w hroom
    rw [invoke_eq, if_neg hroom]
    simp [testEnv, TestHost.newStringUTF, TestHost.exhausted]
  · intro answer log heap w
    rw [invoke_eq]
    split_ifs <;> simp [Outcome.after, recordingEnv, JNICall.touchesException]

/-- Witness of the amended C3: on the small host with no room for a string, and
with native memory to be had, `getHmacSecret` returns null, the
`OutOfMemoryError` of the constructor is pending and nothing else changed; and
with no native memory the exception is `std::bad_alloc` and the process is
untouched. -/
theorem accessor_propagates_constructor_result_witness :
    invoke (paddedLib 22 1) (testEnv (some 0)) Accessor.getHmacSecret none
        ⟨⟨[], some (Throwable.other 3)⟩, ⟨[], 100⟩, ⟨[], []⟩⟩
        = Outcome.returned none
            ⟨⟨[], some Throwable.OutOfMemoryError⟩, ⟨[], 100⟩, ⟨[], []⟩⟩
      ∧ (CxxException.bad_alloc = CxxException.bad_alloc
          ∧ startProcess 7 = startProcess 7
          ∧ (paddedLib 22 1).sso < 54
          ∧ (startProcess 7).heap.free < (paddedLib 22 1).blockSize 54) :=
  ⟨(accessor_propagates_constructor_result (paddedLib 22 1) (testEnv none)
      Accessor.getHmacSecret none (startProcess 100)).2.2.2.1
      [] (some (Throwable.other 3)) ⟨[], 100⟩ ⟨[], []⟩ (by decide),
   (accessor_propagates_constructor_result (paddedLib 22 1) (testEnv none)
      Accessor.getHmacSecret none (startProcess 7)).2.1
      CxxException.bad_alloc (startProcess 7) (by decide)⟩

/-- C4: for each accessor, two successful calls on conforming hosts return strings
with equal bytes, whatever the two function tables, caller handles, C++
libraries and process states the calls start from (so whatever calls came
before, failed ones included); the outcome does not depend on the caller
handle; and the native allocator and the rest of the process are after the
call what they were before, so nothing is retained. -/
theorem accessor_deterministic {H1 H2 : Type} (lib1 lib2 : StdLib)
    (rt1 : HostRuntime H1) (rt2 : HostRuntime H2) (a : Accessor) (this1 this2 : jobject)
    (p1 : Process H1) (p2 : Process H2)
    (hc1 : Conforming rt1) (hc2 : Conforming rt2) (r1 r2 : Nat)
    (q1 : Process H1) (q2 : Process H2)
    (h1 : invoke lib1 rt1.env a this1 p1 = Outcome.returned (some r1) q1)
    (h2 : invoke lib2 rt2.env a this2 p2 = Outcome.returned (some r2) q2) :
    rt1.content q1.host r1 = rt2.content q2.host r2
      ∧ (rt1.content q1.host r1).isSome = true
      ∧ invoke lib1 rt1.env a this2 p1 = invoke lib1 rt1.env a this1 p1
      ∧ q1.heap = p1.heap
      ∧ q1.world = p1.world := by
  have e1 := content_of_success lib1 rt1 a this1 p1 hc1 r1 q1 h1
  have e2 := content_of_success lib2 rt2 a this2 p2 hc2 r2 q2 h2
  obtain ⟨_, _, hq⟩ := returned_of_invoke lib1 rt1.env a this1 p1 (some r1) q1 h1
  refine ⟨by rw [e1, e2], by rw [e1]; rfl, ?_, ?_, ?_⟩
  · rw [invoke_eq, invoke_eq]
  · rw [hq]
  · rw [hq]

/-- Witness of C4: a first call on the unbounded small host, and a call with
another caller handle and another library made after a call that failed on a
host with no room. -/
theorem accessor_deterministic_witness :
    (testRuntime none).content
        (invoke (paddedLib 22 1) (testRuntime none).env Accessor.getApiKey none
          (startProcess 4096)).after.host 0
      = (testRuntime (some 1)).content
        (invoke (paddedLib 0 25) (testRuntime (some 1)).env Accessor.getApiKey (some 4)
          (invoke (paddedLib 0 25) (testRuntime (some 0)).env Accessor.getApiKey none
            (startProcess 100)).after).after.host 0 :=
  (accessor_deterministic (paddedLib 22 1) (paddedLib 0 25) (testRuntime none)
    (testRuntime (some 1)) Accessor.getApiKey none (some 4) (startProcess 4096)
    (invoke (paddedLib 0 25) (testRuntime (some 0)).env Accessor.getApiKey none
      (startProcess 100)).after
    (testRuntime_conforming none) (testRuntime_conforming (some 1)) 0 0
    (invoke (paddedLib 22 1) (testRuntime none).env Accessor.getApiKey none
      (startProcess 4096)).after
    (invoke (paddedLib 0 25) (testRuntime (some 1)).env Accessor.getApiKey (some 4)
      (invoke (paddedLib 0 25) (testRuntime (some 0)).env Accessor.getApiKey none
        (startProcess 100)).after).after
    (by decide) (by decide)).1

/-- C5: against a conforming host whose string constructor always succeeds, every
finite interleaved sequence of calls yields, call by call, a string whose bytes
are `API_KEY` for `getApiKey` and `HMAC_SECRET` for `getHmacSecret`, from any
state in which the local string can get its storage; from a state in which it
cannot, the first call throws and there is no result at all.  The two payloads
are different byte sequences. -/
theorem interleaved_calls_not_swapped {H : Type} (lib : StdLib) (rt : HostRuntime H)
    (hc : Conforming rt)
    (hs : ∀ (buf : CharPtr) (h : H), (rt.env.NewStringUTF buf h).1 ≠ none)
    (calls : List (Accessor × jobject)) (p : Process H) :
    run lib rt calls p
        = (if lib.sso < 54 ∧ p.heap.free < lib.blockSize 54 then []
           else calls.map (fun c => some (Spec.payload c.1)))
      ∧ Spec.payload Accessor.getApiKey = Spec.API_KEY
      ∧ Spec.payload Accessor.getHmacSecret = Spec.HMAC_SECRET
      ∧ Spec.API_KEY ≠ Spec.HMAC_SECRET := by
  refine ⟨?_, rfl, rfl, by decide⟩
  split_ifs with hno
  · exact run_of_no_room lib rt calls p hno
  · exact run_of_success lib rt hc hs calls p hno

/-- Witness of C5: four interleaved calls on the unbounded small host. -/
theorem interleaved_calls_not_swapped_witness :
    run (paddedLib 22 1) (testRuntime none)
        [(Accessor.getHmacSecret, none), (Accessor.getApiKey, some 1),
         (Accessor.getApiKey, none), (Accessor.getHmacSecret, some 2)] (startProcess 4096)
      = [some Spec.HMAC_SECRET, some Spec.API_KEY, some Spec.API_KEY,
         some Spec.HMAC_SECRET] :=
  (interleaved_calls_not_swapped (paddedLib 22 1) (testRuntime none)
    (testRuntime_conforming none) testRuntime_succeeds
    [(Accessor.getHmacSecret, none), (Accessor.getApiKey, some 1),
     (Accessor.getApiKey, none), (Accessor.getHmacSecret, some 2)] (startProcess 4096)).1

/-! ## Shape of the payloads -/

/-- C6: the `api_key` string of `getApiKey` and the `hmac_secret` string of
`getHmacSecret` both have 54 characters, `strlen` of either `c_str()` view is 54,
and so on a conforming host a non-null result of either accessor is a string
of length 54. -/
theorem payload_length_54 {H : Type} (lib : StdLib) (rt : HostRuntime H)
    (a : Accessor) (this : jobject) (p : Process H) :
    (api_key lib).data.length = 54
      ∧ (hmac_secret lib).data.length = 54
      ∧ strlen (api_key lib).c_str = 54
      ∧ strlen (hmac_secret lib).c_str = 54
      ∧ (Conforming rt → ∀ (r : Nat) (q : Process H),
          invoke lib rt.env a this p = Outcome.returned (some r) q →
          (rt.content q.host r).map List.length = some 54) := by
  have hk := c_str_localString lib Accessor.getApiKey
  have hh := c_str_localString lib Accessor.getHmacSecret
  have dk := localString_data lib Accessor.getApiKey
  have dh := localString_data lib Accessor.getHmacSecret
  have lk : (Spec.payload Accessor.getApiKey).length = 54 := by decide
  have lh : (Spec.payload Accessor.getHmacSecret).length = 54 := by decide
  refine ⟨?_, ?_, ?_, ?_, ?_⟩
  · show (localString lib Accessor.getApiKey).data.length = 54
    rw [dk]; exact lk
  · show (localString lib Accessor.getHmacSecret).data.length = 54
    rw [dh]; exact lh
  · show strlen (localString lib Accessor.getApiKey).c_str = 54
    rw [hk]; unfold strlen; rw [cstrView_handoff]; exact lk
  · show strlen (localString lib Accessor.getHmacSecret).c_str = 54
    rw [hh]; unfold strlen; rw [cstrView_handoff]; exact lh
  · intro hc r q hr
    rw [content_of_success lib rt a this p hc r q hr]
    cases a
    · exact congrArg some lk
    · exact congrArg some lh

/-- Witness of C6: the string `getHmacSecret` returns on the small host has
length 54. -/
theorem payload_length_54_witness :
    ((testRuntime none).content
        (invoke (paddedLib 22 1) (testRuntime none).env Accessor.getHmacSecret none
          (startProcess 4096)).after.host 0).map List.length = some 54 :=
  (payload_length_54 (paddedLib 22 1) (testRuntime none) Accessor.getHmacSecret none
    (startProcess 4096)).2.2.2.2 (testRuntime_conforming none) 0
    (invoke (paddedLib 22 1) (testRuntime none).env Accessor.getHmacSecret none
      (startProcess 4096)).after (by decide)

/-- C7: for both accessors every one of the 54 characters of the local string is
a printable ASCII byte (32..126); none is NUL and none is a newline, the last
one included; so the C-string view of `c_str()` is all 54 characters, with the
terminator at index 54 as the 55th and last byte of the buffer. -/
theorem payload_printable_ascii (lib : StdLib) (a : Accessor) :
    (localString lib a).data.all (fun b => decide (32 ≤ b) && decide (b ≤ 126)) = true
      ∧ (localString lib a).data.length = 54
      ∧ (localString lib a).data.contains 0 = false
      ∧ (localString lib a).data.contains 10 = false
      ∧ cstrView (localString lib a).c_str = (localString lib a).data
      ∧ (cstrView (localString lib a).c_str).length = 54
      ∧ (localString lib a).c_str.bytes[54]? = some 0
      ∧ (localString lib a).c_str.bytes.length = 55 := by
  rw [c_str_localString, cstrView_handoff, localString_data]
  dsimp only
  cases a <;> decide

/-! ## Exported symbols -/

/-- C8: the translation unit defines two functions, both exported with C linkage;
the exported symbols are exactly
`Java_com_vaultguard_app_di_NetworkModule_getApiKey` and
`Java_com_vaultguard_app_di_NetworkModule_getHmacSecret`, and each is the
mangling rule applied to the class `com.vaultguard.app.di.NetworkModule` and the
method name `getApiKey` or `getHmacSecret`. -/
theorem exported_symbols_exact :
    exportedSymbols
        = ["Java_com_vaultguard_app_di_NetworkModule_getApiKey",
           "Java_com_vaultguard_app_di_NetworkModule_getHmacSecret"]
      ∧ exportedSymbols
        = [Spec.mangle Spec.declaringClass "getApiKey",
           Spec.mangle Spec.declaringClass "getHmacSecret"]
      ∧ exportedSymbols = [Accessor.getApiKey.symbol, Accessor.getHmacSecret.symbol]
      ∧ translationUnit.length = 2
      ∧ translationUnit.all (fun f => f.cLinkage && f.exported) = true
      ∧ Spec.declaringClass = "com.vaultguard.app.di.NetworkModule" := by
  decide

/-! ## Effects -/

/-- C9 fails as stated: with too little memory left for the local string,
`getHmacSecret` makes no host call at all: the recording host's log stays empty
and `std::bad_alloc` leaves the function, where the claim has exactly one
`NewStringUTF` call on failure as on success. -/
theorem no_host_call_when_allocation_fails :
    invoke (paddedLib 15 1) (recordingEnv (some 0)) Accessor.getHmacSecret none
        (startRecording 10)
        = Outcome.threw CxxException.bad_alloc (startRecording 10)
      ∧ (invoke (paddedLib 15 1) (recordingEnv (some 0)) Accessor.getHmacSecret none
          (startRecording 10)).after.host = []
      ∧ (invoke (paddedLib 15 1) (recordingEnv (some 0)) Accessor.getHmacSecret none
          (startRecording 10)).after.host
        ≠ [JNICall.NewStringUTF ⟨Storage.heap, Spec.HMAC_SECRET ++ [0]⟩] := by
  decide

/-- C9, amended: for both accessors, on explicit process state: a call uses `env`
for at most one operation.  When the local string gets its storage the call is
exactly one `NewStringUTF` invocation: its outcome is that invocation's result
together with the host state it produced, the native allocator and the rest of
the process being as before the call, whether the result is null or not, and a
host that records what it is asked sees exactly that one call added to its
log.  When the local string cannot get its storage, `env` is not used, the
recording host's log is unchanged and so is the whole process state. -/
theorem accessor_single_host_call {H : Type} (lib : StdLib) (env : JNIEnv H)
    (a : Accessor) (this : jobject) (p : Process H) :
    invoke lib env a this p
        = (if lib.sso < 54 ∧ p.heap.free < lib.blockSize 54 then
             Outcome.threw CxxException.bad_alloc p
           else
             Outcome.returned (env.NewStringUTF ⟨storageFor lib.sso 54, Spec.payload a ++ [0]⟩ p.host).1
               ⟨(env.NewStringUTF ⟨storageFor lib.sso 54, Spec.payload a ++ [0]⟩ p.host).2, p.heap, p.world⟩)
      ∧ (∀ (answer : jstring) (log : List JNICall) (heap : NativeHeap) (w : World),
          invoke lib (recordingEnv answer) a this ⟨log, heap, w⟩
            = (if lib.sso < 54 ∧ heap.free < lib.blockSize 54 then
                 Outcome.threw CxxException.bad_alloc ⟨log, heap, w⟩
               else
                 Outcome.returned answer
                   ⟨log ++ [JNICall.NewStringUTF ⟨storageFor lib.sso 54, Spec.payload a ++ [0]⟩], heap, w⟩)) := by
  refine ⟨invoke_eq lib env a this p, ?_⟩
  intro answer log heap w
  rw [invoke_eq]
  rfl

/-- C10 fails as stated: with a small-string capacity of 22 the buffer `getApiKey`
hands the host is not the literal in read-only data but a copy in a block of
the native heap, which the local string took from the allocator before the
host constructor ran. -/
theorem handoff_is_not_the_literal :
    (invoke (paddedLib 22 1) (recordingEnv none) Accessor.getApiKey none
        (startRecording 4096)).after.host
        ≠ [JNICall.NewStringUTF (literalOf Accessor.getApiKey)]
      ∧ (invoke (paddedLib 22 1) (recordingEnv none) Accessor.getApiKey none
          (startRecording 4096)).after.host
        = [JNICall.NewStringUTF ⟨Storage.heap, Spec.API_KEY ++ [0]⟩]
      ∧ ((api_key (paddedLib 22 1)).acquire (startRecording 4096).heap).map
          (fun h => h.live.length) = some 1 := by
  decide

/-- C10, amended: for both accessors the buffer handed to `NewStringUTF` is not
the literal but the `c_str()` view of the function-local string built from it:
a copy whose bytes equal the bytes of the literal, terminator included, kept in
storage of that string and never in read-only data.  When 54 exceeds the
small-string capacity that storage is a block the string requests from the
native allocator before the host call, of the size the library chooses; if the
request fails the accessor throws and the host is not called.  Otherwise the
copy is kept in the object and nothing is requested.  Whenever the accessor
returns, the allocator is as it was before the call. -/
theorem handoff_is_local_copy {H : Type} (lib : StdLib) (env : JNIEnv H) (a : Accessor)
    (this : jobject) (p : Process H) :
    (literalOf a).storage = Storage.rodata
      ∧ (localString lib a).c_str.bytes = (literalOf a).bytes
      ∧ (localString lib a).c_str.storage ≠ Storage.rodata
      ∧ invoke lib env a this p
        = (if lib.sso < 54 ∧ p.heap.free < lib.blockSize 54 then
             Outcome.threw CxxException.bad_alloc p
           else
             Outcome.returned (env.NewStringUTF (localString lib a).c_str p.host).1
               ⟨(env.NewStringUTF (localString lib a).c_str p.host).2, p.heap, p.world⟩)
      ∧ (lib.sso < 54 → (localString lib a).c_str.storage = Storage.heap
          ∧ (localString lib a).acquire p.heap = p.heap.operatorNew (lib.blockSize 54))
      ∧ (54 ≤ lib.sso → (localString lib a).c_str.storage = Storage.inlineBuf
          ∧ (localString lib a).acquire p.heap = some p.heap) := by
  refine ⟨?_, ?_, ?_, ?_, ?_, ?_⟩
  · cases a <;> rfl
  · rw [c_str_localString, bytes_literalOf]
  · rw [c_str_localString]
    show storageFor lib.sso 54 ≠ Storage.rodata
    unfold storageFor
    split_ifs <;> decide
  · rw [c_str_localString]
    exact invoke_eq lib env a this p
  · intro h
    refine ⟨?_, ?_⟩
    · rw [c_str_localString]
      show storageFor lib.sso 54 = Storage.heap
      unfold storageFor
      rw [if_neg (by omega)]
    · rw [localString_heap lib a h]
      rfl
  · intro h
    refine ⟨?_, acquire_localString_inline lib a p.heap h⟩
    rw [c_str_localString]
    show storageFor lib.sso 54 = Storage.inlineBuf
    unfold storageFor
    rw [if_pos h]

/-- Witness of the amended C10: for a library without small-string buffer that
asks for 25 bytes over the characters the local string of `getHmacSecret` lives
in a heap block requested with `operator new`; for a library whose
small-string buffer takes 64 characters it lives in the object and nothing is
requested. -/
theorem handoff_is_local_copy_witness :
    ((localString (paddedLib 0 25) Accessor.getHmacSecret).c_str.storage = Storage.heap
        ∧ (localString (paddedLib 0 25) Accessor.getHmacSecret).acquire
            (startProcess 4096).heap
          = (startProcess 4096).heap.operatorNew ((paddedLib 0 25).blockSize 54))
      ∧ ((localString (paddedLib 64 1) Accessor.getApiKey).c_str.storage
          = Storage.inlineBuf
        ∧ (localString (paddedLib 64 1) Accessor.getApiKey).acquire (startProcess 0).heap
          = some (startProcess 0).heap) :=
  ⟨(handoff_is_local_copy (paddedLib 0 25) (testEnv none) Accessor.getHmacSecret none
      (startProcess 4096)).2.2.2.2.1 (by decide),
   (handoff_is_local_copy (paddedLib 64 1) (testEnv none) Accessor.getApiKey none
      (startProcess 0)).2.2.2.2.2 (by decide)⟩

end NativeLib
